import Mathlib

/-!
Verification of the segmented-download orchestrator.

Shallow embedding of src/utils/segmentDownloader.py (class SegmentDownloader)
and proofs about the claims of the specification.

Modelling conventions:

* The mutable session state of a SegmentDownloader instance — the download
  directory contents, self.downloaded_segments and self.failed_segments —
  is the structure DLState.  The file segment_i.m4a is st.disk i
  (none = the file does not exist, some bytes = it exists with the given
  content; bytes = [] is an existing zero-byte file).
* Network behaviour is an oracle.  One HTTP GET issued by download_segment
  for a given retry counter has outcome AttemptOutcome: reqError is a
  requests RequestException raised by session.get or raise_for_status before
  the output file is opened; midStream p is an exception raised while
  iterating iter_content after the write-binary open has already created the
  file and written the bytes p; fullBody b is a fully streamed response body.
* Observable side effects of a fetch are recorded in the result
  (netCalls = number of GETs issued, sleeps = backoff sleep durations),
  so that claims about retry counts and backoff can be stated.
* The Python config value MAX_RETRIES (default 3) is the parameter maxR.
-/

/-- Network outcome of one HTTP GET issued by download_segment: the call
session.get with stream enabled, followed by streaming the body. -/
inductive AttemptOutcome where
  | reqError : AttemptOutcome
  | midStream : List Nat → AttemptOutcome
  | fullBody : List Nat → AttemptOutcome
deriving DecidableEq

/-- Whether the outcome is a mid-stream failure, i.e. an exception raised
after the output file was opened and partially written. -/
def AttemptOutcome.isMid : AttemptOutcome → Bool
  | .midStream _ => true
  | _ => false

/-- Whether the outcome is a transient failure that leaves no data behind:
a request error before the body, a mid-stream drop before any byte was
written, or a complete but empty body. -/
def AttemptOutcome.transientNoData : AttemptOutcome → Bool
  | .reqError => true
  | .midStream p => decide (p = [])
  | .fullBody b => decide (b = [])

/-- Session state of a SegmentDownloader: the on-disk segment files,
self.downloaded_segments and self.failed_segments. -/
structure DLState where
  disk : Nat → Option (List Nat)
  downloaded : Finset Nat
  failed : Finset Nat

/-- The empty session state right after SegmentDownloader.__init__
(lines 82-83: both tracking sets start empty). -/
def DLState.init : DLState :=
  ⟨fun _ => none, ∅, ∅⟩

/-- Models opening segment_file for writing (which creates or truncates it)
followed by writing the bytes b. -/
def writeDisk (st : DLState) (seg : Nat) (b : List Nat) : DLState :=
  { st with disk := fun i => if i = seg then some b else st.disk i }

/-- Models segment_file.unlink(). -/
def eraseDisk (st : DLState) (seg : Nat) : DLState :=
  { st with disk := fun i => if i = seg then none else st.disk i }

/-- Models self.downloaded_segments.add(segment_num). -/
def addDownloaded (st : DLState) (seg : Nat) : DLState :=
  { st with downloaded := insert seg st.downloaded }

/-- Models self.failed_segments.add(segment_num). -/
def addFailed (st : DLState) (seg : Nat) : DLState :=
  { st with failed := insert seg st.failed }

/-- The existence check of download_segment, line 132 of the source:
segment_file.exists() and segment_file.stat().st_size > 0. -/
def existsNonzero (st : DLState) (seg : Nat) : Bool :=
  match st.disk seg with
  | some b => decide (0 < b.length)
  | none => false

/-- One execution of the try block of download_segment (lines 137-172),
given the network outcome o of its GET.  Returns whether the block reached
the final return True, together with the state it leaves behind:

* reqError: the exception is raised before the file is opened, nothing is
  written;
* midStream p: the write-binary open has created the file and the bytes p
  were written before the exception — the file stays behind;
* fullBody b with b = []: the file is written, the zero-size check at line
  166 fires, the file is unlinked and SegmentDownloadError is raised;
* fullBody b with b nonempty: the file is written and the index is added to
  self.downloaded_segments. -/
def attemptStep (o : AttemptOutcome) (seg : Nat) (st : DLState) : Bool × DLState :=
  match o with
  | .reqError => (false, st)
  | .midStream p => (false, writeDisk st seg p)
  | .fullBody b =>
      if b.length = 0 then (false, eraseDisk (writeDisk st seg b) seg)
      else (true, addDownloaded (writeDisk st seg b) seg)

/-- Result of a fetch: the boolean return value of download_segment, the
state left behind, and the observable side effects — how many HTTP GETs were
issued and which backoff sleeps (time.sleep of 2 to the power retry_count,
lines 181-183) happened, in order. -/
structure FetchResult where
  ok : Bool
  st : DLState
  netCalls : Nat
  sleeps : List Nat

/-- The recursion of download_segment (lines 118-188).  retry is the Python
variable retry_count; rem is the number of retries still allowed, i.e. the
value MAX_RETRIES - retry_count, so the source guard
retry_count < MAX_RETRIES (line 180) is exactly rem being nonzero, and the
recursive call with retry_count + 1 runs with rem - 1. -/
def fetch_from (oracle : Nat → AttemptOutcome) (seg : Nat) :
    Nat → Nat → DLState → FetchResult
  | retry, rem, st =>
    if existsNonzero st seg then
      -- lines 132-135: skip, record downloaded, return True; no GET issued
      ⟨true, addDownloaded st seg, 0, []⟩
    else
      let a := attemptStep (oracle retry) seg st
      if a.1 then ⟨true, a.2, 1, []⟩
      else
        match rem with
        | Nat.succ rem' =>
            -- lines 180-184: sleep 2 ^ retry, then recurse with retry + 1
            let r := fetch_from oracle seg (retry + 1) rem' a.2
            ⟨r.ok, r.st, r.netCalls + 1, 2 ^ retry :: r.sleeps⟩
        | 0 =>
            -- lines 185-188: retries exhausted, record failed, return False
            ⟨false, addFailed a.2 seg, 1, []⟩

/-- Models SegmentDownloader.download_segment(segment_num, retry_count) with
retry budget maxR, the config value MAX_RETRIES. -/
def download_segment (oracle : Nat → AttemptOutcome) (maxR seg retry : Nat)
    (st : DLState) : FetchResult :=
  fetch_from oracle seg retry (maxR - retry) st

/-- Default value of the config field MAX_RETRIES (line 50). -/
def MAX_RETRIES : Nat := 3

/-- The dictionary returned by get_segment_status when it returns normally:
the ready list and the optional totalSegments count (lines 106-109 and the
two except arms). -/
structure BackendStatus where
  ready : List Nat
  total : Option Nat
deriving DecidableEq

/-- What the backend produced for one status request, as seen by
get_segment_status (lines 91-116):

* badJson: a 2xx response whose body response.json() cannot parse
  (json.JSONDecodeError);
* nonObject: a 2xx response whose body is valid JSON but not a JSON object
  (for example a bare array or string);
* obj ready total: a 2xx response that is a JSON object whose optional
  fields ready and totalSegments are as given. -/
inductive ProbeBody where
  | badJson : ProbeBody
  | nonObject : ProbeBody
  | obj : Option (List Nat) → Option Nat → ProbeBody
deriving DecidableEq

/-- Transport-level outcome of one status request: requestError is a
requests RequestException raised by session.get or raise_for_status
(connection failure, timeout, non-2xx status); response carries the body of
a 2xx response. -/
inductive ProbeOutcome where
  | requestError : ProbeOutcome
  | response : ProbeBody → ProbeOutcome
deriving DecidableEq

/-- An exception that escapes get_segment_status to its caller. -/
inductive ProbeError where
  | attributeError : ProbeError
deriving DecidableEq

/-- Models SegmentDownloader.get_segment_status (lines 91-116).  The two
except clauses (lines 111-116) catch exactly requests RequestException and
json.JSONDecodeError and return the empty status.  When response.json()
parses to a non-object, the attribute access data.get at line 107 raises
AttributeError, which matches neither except clause and propagates. -/
def get_segment_status : ProbeOutcome → Except ProbeError BackendStatus
  | .requestError => .ok ⟨[], none⟩
  | .response .badJson => .ok ⟨[], none⟩
  | .response .nonObject => .error .attributeError
  | .response (.obj ready total) => .ok ⟨ready.getD [], total⟩

/-- Result of download_available_segments: its return value, the state left
behind, and (instrumentation) the to_download list of indices for which a
download_segment task was actually submitted to the pool (line 223). -/
structure DispatchResult where
  returned : List Nat
  st : DLState
  issued : List Nat

/-- The list comprehension at lines 208-209: keep the segments of the ready
list that are in neither self.downloaded_segments nor
self.failed_segments. -/
def pendingOf (ready : List Nat) (st : DLState) : List Nat :=
  ready.filter fun s => decide (s ∉ st.downloaded ∧ s ∉ st.failed)

/-- Lines 211-212: truncate to_download to the first max_segments entries.
Python truthiness: a max_segments of None or 0 skips the truncation. -/
def truncatePending (maxSegs : Option Nat) (l : List Nat) : List Nat :=
  match maxSegs with
  | some m => if m = 0 then l else l.take m
  | none => l

/-- The to_download list of download_available_segments as submitted to the
executor (lines 208-224). -/
def to_download_list (ready : List Nat) (maxSegs : Option Nat) (st : DLState) :
    List Nat :=
  truncatePending maxSegs (pendingOf ready st)

/-- The ThreadPoolExecutor fan-out of lines 221-234, linearized: every
element of segs gets one download_segment invocation, and a segment number
is appended to successful_downloads when its future returns True.  The
completion order only permutes successful_downloads, which line 235 sorts,
so the linearization in submission order is observationally faithful. -/
def runPool (oracle : Nat → Nat → AttemptOutcome) (maxR : Nat) :
    List Nat → DLState → List Nat → List Nat × DLState
  | [], st, acc => (acc, st)
  | seg :: rest, st, acc =>
      let r := download_segment (oracle seg) maxR seg 0 st
      runPool oracle maxR rest r.st (if r.ok then acc ++ [seg] else acc)

/-- Models SegmentDownloader.download_available_segments (lines 190-235),
with the answer of the status probe already in hand.

* lines 203-205: an empty ready list returns the empty list;
* lines 214-216: when everything ready is already downloaded or failed, the
  return value is list(self.downloaded_segments) — a Python set enumerated
  in an implementation-defined order, which this model fixes as ascending;
* line 235: otherwise the successes of this round, sorted ascending. -/
def download_available_segments (status : BackendStatus)
    (oracle : Nat → Nat → AttemptOutcome) (maxR : Nat) (maxSegs : Option Nat)
    (st : DLState) : DispatchResult :=
  if status.ready = [] then ⟨[], st, []⟩
  else
    let pend := to_download_list status.ready maxSegs st
    if pend = [] then ⟨st.downloaded.sort (· ≤ ·), st, []⟩
    else
      let r := runPool oracle maxR pend st []
      ⟨r.1.insertionSort (· ≤ ·), r.2, pend⟩

/-- The behaviour of the backend during one monitor cycle: the status answer
consumed by download_available_segments (line 255), the status answer
consumed by the completion check (line 265), and the network behaviour of
every fetch of the cycle (per segment, per retry counter). -/
structure CycleEnv where
  status1 : BackendStatus
  status2 : BackendStatus
  oracle : Nat → Nat → AttemptOutcome

/-- Stop reason of the monitor loop: the completion break at line 268, the
stagnation break at line 273, or the while condition at line 252 turning
false. -/
inductive StopReason where
  | allComplete : StopReason
  | stagnant : StopReason
  | timedOut : StopReason
deriving DecidableEq

/-- The loop-carried variables of monitor_and_download:
last_segment_count, no_new_segments_count and the session state
(lines 249-250). -/
structure MonState where
  last_count : Nat
  no_new : Nat
  st : DLState

/-- Result of the monitor loop: why it stopped, the final state, and how
many cycles ran. -/
structure MonitorResult where
  reason : StopReason
  st : DLState
  cycles : Nat

/-- The completion test at line 266: status.get(total) is truthy and the
count of downloaded segments is at least total.  Python truthiness: a total
of None or 0 is falsy. -/
def totalReached (s : BackendStatus) (st : DLState) : Bool :=
  match s.total with
  | some t => decide (t ≠ 0) && decide (t ≤ st.downloaded.card)
  | none => false

/-- One iteration of the while body of monitor_and_download
(lines 253-277): dispatch, update last_segment_count and
no_new_segments_count (lines 257-262), then the two break checks
(lines 265-273, stagnation threshold 10).  Returns the new loop variables
and the stop reason when the iteration breaks out of the loop. -/
def monitor_step (e : CycleEnv) (maxR : Nat) (ms : MonState) :
    MonState × Option StopReason :=
  let d := download_available_segments e.status1 e.oracle maxR none ms.st
  let ms' :=
    if ms.last_count < d.returned.length then
      ⟨d.returned.length, 0, d.st⟩
    else
      ⟨ms.last_count, ms.no_new + 1, d.st⟩
  if totalReached e.status2 ms'.st then (ms', some .allComplete)
  else if 10 ≤ ms'.no_new then (ms', some .stagnant)
  else (ms', none)

/-- The while loop of monitor_and_download (lines 252-284).  Wall-clock time
is abstracted by remaining, the number of further iterations the wall-clock
bound still admits: each iteration takes positive time (it always sleeps),
so the elapsed-time check at line 252 cuts the loop off after a finite
number of iterations; remaining = 0 is that check failing, reported as
timedOut. -/
def monitor_loop (env : Nat → CycleEnv) (maxR : Nat) :
    Nat → Nat → MonState → MonitorResult
  | 0, cycle, ms => ⟨.timedOut, ms.st, cycle⟩
  | Nat.succ remaining, cycle, ms =>
      let r := monitor_step (env cycle) maxR ms
      match r.2 with
      | some reason => ⟨reason, r.1.st, cycle + 1⟩
      | none => monitor_loop env maxR remaining (cycle + 1) r.1

/-- Models SegmentDownloader.monitor_and_download (lines 237-287), starting
from the loop initialization of lines 248-250. -/
def monitor_and_download (env : Nat → CycleEnv) (maxR maxCycles : Nat)
    (st : DLState) : MonitorResult :=
  monitor_loop env maxR maxCycles 0 ⟨0, 0, st⟩

/-- Outcome of reading one segment file inside the concatenation loop of
_combine_simple. -/
inductive ReadOutcome where
  | ok : List Nat → ReadOutcome
  | ioError : ReadOutcome
deriving DecidableEq

/-- Result of a combine operation: the boolean return value and the contents
of the output file (none = the output file does not exist). -/
structure CombineResult where
  ok : Bool
  output : Option (List Nat)
deriving DecidableEq

/-- The read-write loop of _combine_simple (lines 366-369): the output file
is already open (created, truncated to empty), and each segment file in
order is read and appended.  An ioError raises out of the loop into the
except arm (line 374), which returns False — without removing what was
already written to the output file. -/
def combine_simple_go (acc : List Nat) : List ReadOutcome → CombineResult
  | [] => ⟨true, some acc⟩
  | .ok b :: rest => combine_simple_go (acc ++ b) rest
  | .ioError :: _ => ⟨false, some acc⟩

/-- Models SegmentDownloader._combine_simple (lines 363-376).  openOk is
whether opening the output file for writing succeeds (if not, the except arm
returns False and the output file was never created); reads gives, in
ascending index order, the outcome of reading each segment file. -/
def combine_simple (openOk : Bool) (reads : List ReadOutcome) : CombineResult :=
  if openOk then combine_simple_go [] reads else ⟨false, none⟩

/-- Behaviour of the external ffmpeg invocation (line 348): fails carries a
CalledProcessError together with whatever partial output the tool left at
the output path; succeeds wrote the given bytes. -/
inductive FfmpegBehavior where
  | fails : Option (List Nat) → FfmpegBehavior
  | succeeds : List Nat → FfmpegBehavior
deriving DecidableEq

/-- Models SegmentDownloader._combine_with_ffmpeg (lines 330-361).
listWriteOk is whether writing segments_list.txt succeeds (otherwise the
generic except arm at line 359 returns False).  On CalledProcessError the
function returns False (lines 356-358) without removing whatever the tool
left at the output path. -/
def combine_with_ffmpeg (listWriteOk : Bool) (ffmpeg : FfmpegBehavior) :
    CombineResult :=
  if listWriteOk then
    match ffmpeg with
    | .fails leftover => ⟨false, leftover⟩
    | .succeeds out => ⟨true, some out⟩
  else ⟨false, none⟩

/-- A session state in which segment 0 is already Downloaded (its artifact
holds the byte 1), used by the counterexample and witness of claim C2. -/
def c2State : DLState := ⟨fun i => if i = 0 then some [1] else none, {0}, ∅⟩

/-- A backend whose every fetch succeeds with the byte 7 (claim C2). -/
def c2Oracle : Nat → Nat → AttemptOutcome := fun _ _ => .fullBody [7]

/-- First cycle of the C3 counterexample: segments 0 and 1 are ready and
both download successfully. -/
def c3EnvA : CycleEnv := ⟨⟨[0, 1], none⟩, ⟨[], none⟩, fun _ _ => .fullBody [3]⟩

/-- Second cycle of the C3 counterexample: segment 2 becomes ready and
downloads successfully. -/
def c3EnvB : CycleEnv := ⟨⟨[0, 1, 2], none⟩, ⟨[], none⟩, fun _ _ => .fullBody [4]⟩

/-- A backend that never reports any ready index and no total, used by the
witness of claim C3. -/
def c3EnvEmpty : Nat → CycleEnv :=
  fun _ => ⟨⟨[], none⟩, ⟨[], none⟩, fun _ _ => .reqError⟩

/-- A session state in which segments 2 and 3 are already Downloaded, used
by the witness of claim C5. -/
def c5State : DLState := ⟨fun _ => none, {2, 3}, ∅⟩

/-- A session state in which the artifact of segment 0 exists with one byte,
used by the witness of claim C6. -/
def c6State : DLState := ⟨fun i => if i = 0 then some [5] else none, ∅, ∅⟩

/-- A well-behaved backend (duplicate-free ready lists) for the witness of
claim C9. -/
def c9EnvW : Nat → CycleEnv :=
  fun _ => ⟨⟨[0, 1], none⟩, ⟨[], none⟩, fun _ _ => .fullBody [1]⟩

/-- A session state in which segment 0 has a nonempty artifact and segment 1
has a zero-byte artifact, used by the witness of claim C10. -/
def c10State : DLState :=
  ⟨fun i => if i = 0 then some [5] else if i = 1 then some [] else none, ∅, ∅⟩

theorem attemptStep_false_sets (o : AttemptOutcome) (seg : Nat) (st : DLState)
    (h : (attemptStep o seg st).1 = false) :
    (attemptStep o seg st).2.downloaded = st.downloaded ∧
      (attemptStep o seg st).2.failed = st.failed := by
  cases o with
  | reqError => simp [attemptStep]
  | midStream p => simp [attemptStep, writeDisk]
  | fullBody b =>
      by_cases hb : b.length = 0
      · simp [attemptStep, hb, eraseDisk, writeDisk]
      · simp [attemptStep, hb] at h

theorem attemptStep_true_sets (o : AttemptOutcome) (seg : Nat) (st : DLState)
    (h : (attemptStep o seg st).1 = true) :
    (attemptStep o seg st).2.downloaded = insert seg st.downloaded ∧
      (attemptStep o seg st).2.failed = st.failed := by
  cases o with
  | reqError => simp [attemptStep] at h
  | midStream p => simp [attemptStep] at h
  | fullBody b =>
      by_cases hb : b.length = 0
      · simp [attemptStep, hb] at h
      · simp [attemptStep, hb, addDownloaded, writeDisk]

theorem fetch_from_unfold (oracle : Nat → AttemptOutcome) (seg retry rem : Nat)
    (st : DLState) :
    fetch_from oracle seg retry rem st =
      if existsNonzero st seg then ⟨true, addDownloaded st seg, 0, []⟩
      else
        let a := attemptStep (oracle retry) seg st
        if a.1 then ⟨true, a.2, 1, []⟩
        else
          match rem with
          | Nat.succ rem' =>
              let r := fetch_from oracle seg (retry + 1) rem' a.2
              ⟨r.ok, r.st, r.netCalls + 1, 2 ^ retry :: r.sleeps⟩
          | 0 => ⟨false, addFailed a.2 seg, 1, []⟩ := by
  cases rem <;> rfl

theorem fetch_from_sets (oracle : Nat → AttemptOutcome) (seg : Nat) :
    ∀ (rem retry : Nat) (st : DLState),
      ((fetch_from oracle seg retry rem st).ok = true →
        (fetch_from oracle seg retry rem st).st.downloaded = insert seg st.downloaded ∧
          (fetch_from oracle seg retry rem st).st.failed = st.failed) ∧
      ((fetch_from oracle seg retry rem st).ok = false →
        (fetch_from oracle seg retry rem st).st.downloaded = st.downloaded ∧
          (fetch_from oracle seg retry rem st).st.failed = insert seg st.failed) := by
  intro rem
  induction rem with
  | zero =>
      intro retry st
      rw [fetch_from_unfold]
      by_cases hex : existsNonzero st seg
      · simp [hex, addDownloaded]
      · simp only [hex, if_false, Bool.false_eq_true]
        cases ha : (attemptStep (oracle retry) seg st).1 with
        | false =>
            have hs := attemptStep_false_sets _ _ _ ha
            simp [ha, addFailed, hs.1, hs.2]
        | true =>
            have hs := attemptStep_true_sets _ _ _ ha
            simp [ha, hs.1, hs.2]
  | succ rem' ih =>
      intro retry st
      rw [fetch_from_unfold]
      by_cases hex : existsNonzero st seg
      · simp [hex, addDownloaded]
      · simp only [hex, if_false, Bool.false_eq_true]
        cases ha : (attemptStep (oracle retry) seg st).1 with
        | false =>
            have hs := attemptStep_false_sets _ _ _ ha
            have hr := ih (retry + 1) (attemptStep (oracle retry) seg st).2
            simp only [ha, if_false, Bool.false_eq_true]
            constructor
            · intro hok
              have := hr.1 hok
              simp [this.1, this.2, hs.1, hs.2]
            · intro hok
              have := hr.2 hok
              simp [this.1, this.2, hs.1, hs.2]
        | true =>
            have hs := attemptStep_true_sets _ _ _ ha
            simp [ha, hs.1, hs.2]

theorem download_segment_zero (oracle : Nat → AttemptOutcome) (maxR seg : Nat)
    (st : DLState) :
    download_segment oracle maxR seg 0 st = fetch_from oracle seg 0 maxR st := by
  simp [download_segment]

theorem download_segment_sets (oracle : Nat → AttemptOutcome) (maxR seg : Nat)
    (st : DLState) :
    ((download_segment oracle maxR seg 0 st).ok = true →
      (download_segment oracle maxR seg 0 st).st.downloaded = insert seg st.downloaded ∧
        (download_segment oracle maxR seg 0 st).st.failed = st.failed) ∧
    ((download_segment oracle maxR seg 0 st).ok = false →
      (download_segment oracle maxR seg 0 st).st.downloaded = st.downloaded ∧
        (download_segment oracle maxR seg 0 st).st.failed = insert seg st.failed) := by
  rw [download_segment_zero]
  exact fetch_from_sets oracle seg maxR 0 st

theorem download_segment_mono (oracle : Nat → AttemptOutcome) (maxR seg : Nat)
    (st : DLState) :
    st.downloaded ⊆ (download_segment oracle maxR seg 0 st).st.downloaded ∧
      st.failed ⊆ (download_segment oracle maxR seg 0 st).st.failed := by
  have h := download_segment_sets oracle maxR seg st
  cases hok : (download_segment oracle maxR seg 0 st).ok with
  | false =>
      rcases h.2 hok with ⟨h1, h2⟩
      rw [h1, h2]
      exact ⟨subset_rfl, Finset.subset_insert _ _⟩
  | true =>
      rcases h.1 hok with ⟨h1, h2⟩
      rw [h1, h2]
      exact ⟨Finset.subset_insert _ _, subset_rfl⟩

theorem runPool_spec (oracle : Nat → Nat → AttemptOutcome) (maxR : Nat) :
    ∀ (segs : List Nat) (st : DLState) (acc : List Nat),
      (∀ x ∈ (runPool oracle maxR segs st acc).1,
        x ∈ acc ∨ (x ∈ segs ∧ x ∈ (runPool oracle maxR segs st acc).2.downloaded)) ∧
      st.downloaded ⊆ (runPool oracle maxR segs st acc).2.downloaded ∧
      st.failed ⊆ (runPool oracle maxR segs st acc).2.failed := by
  intro segs
  induction segs with
  | nil =>
      intro st acc
      simp [runPool]
  | cons seg rest ih =>
      intro st acc
      simp only [runPool]
      have hmono := download_segment_mono (oracle seg) maxR seg st
      have hsets := download_segment_sets (oracle seg) maxR seg st
      have hrec := ih (download_segment (oracle seg) maxR seg 0 st).st
        (if (download_segment (oracle seg) maxR seg 0 st).ok then acc ++ [seg] else acc)
      refine ⟨?_, hmono.1.trans hrec.2.1, hmono.2.trans hrec.2.2⟩
      intro x hx
      rcases hrec.1 x hx with hacc | ⟨hrest, hdl⟩
      · cases hok : (download_segment (oracle seg) maxR seg 0 st).ok with
        | false =>
            rw [hok] at hacc
            simp only [if_false, Bool.false_eq_true] at hacc
            exact Or.inl hacc
        | true =>
            rw [hok] at hacc hrec
            simp only [if_true] at hacc
            rcases List.mem_append.mp hacc with h1 | h1
            · exact Or.inl h1
            · have hxseg : x = seg := by simpa using h1
              subst hxseg
              refine Or.inr ⟨List.mem_cons_self _ _, ?_⟩
              have : x ∈ (download_segment (oracle x) maxR x 0 st).st.downloaded := by
                rw [(hsets.1 hok).1]
                exact Finset.mem_insert_self _ _
              exact hrec.2.1 this
      · exact Or.inr ⟨List.mem_cons_of_mem _ hrest, hdl⟩

theorem runPool_disjoint (oracle : Nat → Nat → AttemptOutcome) (maxR : Nat) :
    ∀ (segs : List Nat) (st : DLState) (acc : List Nat),
      segs.Nodup → (∀ x ∈ segs, x ∉ st.downloaded ∧ x ∉ st.failed) →
      Disjoint st.downloaded st.failed →
      Disjoint (runPool oracle maxR segs st acc).2.downloaded
        (runPool oracle maxR segs st acc).2.failed := by
  intro segs
  induction segs with
  | nil =>
      intro st acc _ _ hd
      simpa [runPool] using hd
  | cons seg rest ih =>
      intro st acc hnd hnotin hd
      simp only [runPool]
      have hsets := download_segment_sets (oracle seg) maxR seg st
      have hseg := hnotin seg (List.mem_cons_self _ _)
      rcases List.nodup_cons.mp hnd with ⟨hsegrest, hndrest⟩
      apply ih _ _ hndrest
      · intro x hx
        have hxn := hnotin x (List.mem_cons_of_mem _ hx)
        have hxseg : x ≠ seg := fun h => hsegrest (h ▸ hx)
        cases hok : (download_segment (oracle seg) maxR seg 0 st).ok with
        | true =>
            rcases hsets.1 hok with ⟨h1, h2⟩
            rw [h1, h2]
            exact ⟨by simp [Finset.mem_insert, hxseg, hxn.1], hxn.2⟩
        | false =>
            rcases hsets.2 hok with ⟨h1, h2⟩
            rw [h1, h2]
            exact ⟨hxn.1, by simp [Finset.mem_insert, hxseg, hxn.2]⟩
      · cases hok : (download_segment (oracle seg) maxR seg 0 st).ok with
        | true =>
            rcases hsets.1 hok with ⟨h1, h2⟩
            rw [h1, h2]
            exact Finset.disjoint_insert_left.mpr ⟨hseg.2, hd⟩
        | false =>
            rcases hsets.2 hok with ⟨h1, h2⟩
            rw [h1, h2]
            exact Finset.disjoint_insert_right.mpr ⟨hseg.1, hd⟩

theorem mem_pendingOf (ready : List Nat) (st : DLState) (x : Nat) :
    x ∈ pendingOf ready st ↔ x ∈ ready ∧ x ∉ st.downloaded ∧ x ∉ st.failed := by
  simp [pendingOf]

theorem truncatePending_subset (maxSegs : Option Nat) (l : List Nat) :
    ∀ x ∈ truncatePending maxSegs l, x ∈ l := by
  cases maxSegs with
  | none => simp [truncatePending]
  | some m =>
      simp only [truncatePending]
      split
      · simp
      · intro x hx
        exact List.take_subset _ _ hx

theorem mem_to_download (ready : List Nat) (maxSegs : Option Nat) (st : DLState)
    (x : Nat) (hx : x ∈ to_download_list ready maxSegs st) :
    x ∈ ready ∧ x ∉ st.downloaded ∧ x ∉ st.failed :=
  (mem_pendingOf ready st x).mp (truncatePending_subset maxSegs _ x hx)

theorem to_download_nil (maxSegs : Option Nat) (st : DLState) :
    to_download_list [] maxSegs st = [] := by
  cases maxSegs with
  | none => rfl
  | some m =>
      simp only [to_download_list, truncatePending, pendingOf, List.filter_nil]
      split <;> simp

theorem to_download_nodup (ready : List Nat) (maxSegs : Option Nat) (st : DLState)
    (h : ready.Nodup) : (to_download_list ready maxSegs st).Nodup := by
  have hp : (pendingOf ready st).Nodup := h.filter _
  cases maxSegs with
  | none => exact hp
  | some m =>
      simp only [to_download_list, truncatePending]
      split
      · exact hp
      · exact (List.take_sublist _ _).nodup hp

theorem dispatch_issued_mem (status : BackendStatus) (oracle : Nat → Nat → AttemptOutcome)
    (maxR : Nat) (maxSegs : Option Nat) (st : DLState) (x : Nat)
    (hx : x ∈ (download_available_segments status oracle maxR maxSegs st).issued) :
    x ∈ status.ready ∧ x ∉ st.downloaded ∧ x ∉ st.failed := by
  by_cases h1 : status.ready = []
  · simp [download_available_segments, h1] at hx
  · by_cases h2 : to_download_list status.ready maxSegs st = []
    · simp [download_available_segments, h1, h2] at hx
    · simp only [download_available_segments, h1, h2, if_false, if_neg] at hx
      exact mem_to_download _ _ _ _ hx

theorem dispatch_mono (status : BackendStatus) (oracle : Nat → Nat → AttemptOutcome)
    (maxR : Nat) (maxSegs : Option Nat) (st : DLState) :
    st.downloaded ⊆ (download_available_segments status oracle maxR maxSegs st).st.downloaded ∧
      st.failed ⊆ (download_available_segments status oracle maxR maxSegs st).st.failed := by
  by_cases h1 : status.ready = []
  · simp [download_available_segments, h1]
  · by_cases h2 : to_download_list status.ready maxSegs st = []
    · simp [download_available_segments, h1, h2]
    · simp only [download_available_segments, h1, h2, if_false, if_neg]
      exact ⟨(runPool_spec oracle maxR _ st []).2.1, (runPool_spec oracle maxR _ st []).2.2⟩

theorem dispatch_disjoint (status : BackendStatus) (oracle : Nat → Nat → AttemptOutcome)
    (maxR : Nat) (maxSegs : Option Nat) (st : DLState)
    (hnd : status.ready.Nodup) (hd : Disjoint st.downloaded st.failed) :
    Disjoint (download_available_segments status oracle maxR maxSegs st).st.downloaded
      (download_available_segments status oracle maxR maxSegs st).st.failed := by
  by_cases h1 : status.ready = []
  · simpa [download_available_segments, h1] using hd
  · by_cases h2 : to_download_list status.ready maxSegs st = []
    · simpa [download_available_segments, h1, h2] using hd
    · simp only [download_available_segments, h1, h2, if_false, if_neg]
      exact runPool_disjoint oracle maxR _ st [] (to_download_nodup _ _ _ hnd)
        (fun x hx => (mem_to_download _ _ _ _ hx).2) hd

theorem monitor_step_st (e : CycleEnv) (maxR : Nat) (ms : MonState) :
    (monitor_step e maxR ms).1.st =
      (download_available_segments e.status1 e.oracle maxR none ms.st).st := by
  by_cases h1 : ms.last_count <
      (download_available_segments e.status1 e.oracle maxR none ms.st).returned.length <;>
    simp only [monitor_step, h1, if_true, if_false] <;> split <;> try split
  all_goals rfl

theorem monitor_loop_inv (env : Nat → CycleEnv) (maxR : Nat)
    (hnd : ∀ c, ((env c).status1.ready).Nodup) :
    ∀ (remaining cycle : Nat) (ms : MonState),
      Disjoint ms.st.downloaded ms.st.failed →
      Disjoint (monitor_loop env maxR remaining cycle ms).st.downloaded
          (monitor_loop env maxR remaining cycle ms).st.failed ∧
        ms.st.downloaded ⊆ (monitor_loop env maxR remaining cycle ms).st.downloaded ∧
        ms.st.failed ⊆ (monitor_loop env maxR remaining cycle ms).st.failed := by
  intro remaining
  induction remaining with
  | zero =>
      intro cycle ms hd
      exact ⟨hd, subset_rfl, subset_rfl⟩
  | succ rem ih =>
      intro cycle ms hd
      have hstd : Disjoint (monitor_step (env cycle) maxR ms).1.st.downloaded
          (monitor_step (env cycle) maxR ms).1.st.failed := by
        rw [monitor_step_st]
        exact dispatch_disjoint _ _ _ _ _ (hnd cycle) hd
      have hstm : ms.st.downloaded ⊆ (monitor_step (env cycle) maxR ms).1.st.downloaded ∧
          ms.st.failed ⊆ (monitor_step (env cycle) maxR ms).1.st.failed := by
        rw [monitor_step_st]
        exact ⟨(dispatch_mono _ _ _ _ _).1, (dispatch_mono _ _ _ _ _).2⟩
      simp only [monitor_loop]
      cases hs2 : (monitor_step (env cycle) maxR ms).2 with
      | some reason =>
          simp only [hs2]
          exact ⟨hstd, hstm.1, hstm.2⟩
      | none =>
          simp only [hs2]
          have hrec := ih (cycle + 1) (monitor_step (env cycle) maxR ms).1 hstd
          exact ⟨hrec.1, hstm.1.trans hrec.2.1, hstm.2.trans hrec.2.2⟩

theorem dispatch_empty_ready (status : BackendStatus) (oracle : Nat → Nat → AttemptOutcome)
    (maxR : Nat) (maxSegs : Option Nat) (st : DLState) (h : status.ready = []) :
    download_available_segments status oracle maxR maxSegs st = ⟨[], st, []⟩ := by
  simp [download_available_segments, h]

theorem monitor_step_empty (e : CycleEnv) (maxR : Nat) (ms : MonState)
    (h1 : e.status1.ready = []) (h2 : e.status2.total = none) :
    monitor_step e maxR ms =
      (⟨ms.last_count, ms.no_new + 1, ms.st⟩,
        if 10 ≤ ms.no_new + 1 then some .stagnant else none) := by
  simp only [monitor_step, dispatch_empty_ready _ _ _ _ _ h1, totalReached, h2]
  norm_num
  split <;> simp_all

theorem monitor_loop_stagnates (env : Nat → CycleEnv) (maxR : Nat)
    (h1 : ∀ c, (env c).status1.ready = []) (h2 : ∀ c, (env c).status2.total = none) :
    ∀ (remaining cycle : Nat) (ms : MonState), ms.no_new < 10 →
      10 ≤ ms.no_new + remaining →
      monitor_loop env maxR remaining cycle ms =
        ⟨.stagnant, ms.st, cycle + (10 - ms.no_new)⟩ := by
  intro remaining
  induction remaining with
  | zero =>
      intro cycle ms hlt hle
      omega
  | succ rem ih =>
      intro cycle ms hlt hle
      simp only [monitor_loop, monitor_step_empty (env cycle) maxR ms (h1 cycle) (h2 cycle)]
      by_cases hstop : 10 ≤ ms.no_new + 1
      · have h10 : 10 - ms.no_new = 1 := by omega
        simp [hstop, h10]
      · simp only [hstop, if_false]
        have hrec := ih (cycle + 1) ⟨ms.last_count, ms.no_new + 1, ms.st⟩
          (by dsimp only; omega) (by dsimp only; omega)
        rw [hrec]
        simp only [MonitorResult.mk.injEq]
        exact ⟨trivial, trivial, by omega⟩

theorem attemptStep_transient (o : AttemptOutcome) (seg : Nat) (st : DLState)
    (h : o.transientNoData = true) (hex : existsNonzero st seg = false) :
    (attemptStep o seg st).1 = false ∧
      existsNonzero (attemptStep o seg st).2 seg = false := by
  cases o with
  | reqError => exact ⟨rfl, hex⟩
  | midStream p =>
      have hp : p = [] := by simpa [AttemptOutcome.transientNoData] using h
      subst hp
      exact ⟨rfl, by simp [attemptStep, existsNonzero, writeDisk]⟩
  | fullBody b =>
      have hb : b = [] := by simpa [AttemptOutcome.transientNoData] using h
      subst hb
      exact ⟨by simp [attemptStep], by simp [attemptStep, existsNonzero, eraseDisk, writeDisk]⟩


theorem sleeps_shift (retry rem : Nat) :
    2 ^ retry :: (List.range rem).map (fun i => 2 ^ (retry + 1 + i))
      = (List.range (rem + 1)).map (fun i => 2 ^ (retry + i)) := by
  rw [List.range_succ_eq_map, List.map_cons, List.map_map]
  refine congrArg₂ _ (by rw [Nat.add_zero]) ?_
  apply List.map_congr_left
  intro a _
  simp only [Function.comp_apply]
  have h : retry + (a + 1) = retry + 1 + a := by omega
  rw [h]

theorem fetch_from_transient (oracle : Nat → AttemptOutcome) (seg : Nat)
    (htr : ∀ r, (oracle r).transientNoData = true) :
    ∀ (rem retry : Nat) (st : DLState), existsNonzero st seg = false →
      (fetch_from oracle seg retry rem st).ok = false ∧
        (fetch_from oracle seg retry rem st).netCalls = rem + 1 ∧
        (fetch_from oracle seg retry rem st).sleeps
          = (List.range rem).map (fun i => 2 ^ (retry + i)) := by
  intro rem
  induction rem with
  | zero =>
      intro retry st hex
      rw [fetch_from_unfold]
      have h := attemptStep_transient (oracle retry) seg st (htr retry) hex
      simp [hex, h.1]
  | succ rem' ih =>
      intro retry st hex
      rw [fetch_from_unfold]
      have h := attemptStep_transient (oracle retry) seg st (htr retry) hex
      have hrec := ih (retry + 1) (attemptStep (oracle retry) seg st).2 h.2
      simp only [hex, Bool.false_eq_true, if_false, h.1]
      refine ⟨hrec.1, by rw [hrec.2.1], ?_⟩
      rw [hrec.2.2, sleeps_shift]

theorem fetch_from_noMid (oracle : Nat → AttemptOutcome) (seg : Nat)
    (hm : ∀ r, (oracle r).isMid = false) :
    ∀ (rem retry : Nat) (st : DLState), st.disk seg = none →
      ((fetch_from oracle seg retry rem st).ok = true ∧
        ∃ b, (fetch_from oracle seg retry rem st).st.disk seg = some b ∧ 0 < b.length) ∨
      ((fetch_from oracle seg retry rem st).ok = false ∧
        (fetch_from oracle seg retry rem st).st.disk seg = none) := by
  intro rem
  induction rem with
  | zero =>
      intro retry st hdisk
      have hex : existsNonzero st seg = false := by simp [existsNonzero, hdisk]
      rw [fetch_from_unfold]
      simp only [hex, Bool.false_eq_true, if_false]
      cases ho : oracle retry with
      | reqError =>
          right
          constructor
          · simp [attemptStep, ho]
          · simp [attemptStep, ho, addFailed, hdisk]
      | midStream p =>
          have := hm retry
          rw [ho] at this
          simp [AttemptOutcome.isMid] at this
      | fullBody b =>
          by_cases hb : b.length = 0
          · right
            constructor
            · simp [attemptStep, ho, hb]
            · simp [attemptStep, ho, hb, addFailed, eraseDisk]
          · left
            constructor
            · simp [attemptStep, ho, hb]
            · exact ⟨b, by simp [attemptStep, ho, hb, addDownloaded, writeDisk], by omega⟩
  | succ rem' ih =>
      intro retry st hdisk
      have hex : existsNonzero st seg = false := by simp [existsNonzero, hdisk]
      rw [fetch_from_unfold]
      simp only [hex, Bool.false_eq_true, if_false]
      cases ho : oracle retry with
      | reqError =>
          have hrec := ih (retry + 1) st (by simpa using hdisk)
          simpa [attemptStep, ho] using hrec
      | midStream p =>
          have := hm retry
          rw [ho] at this
          simp [AttemptOutcome.isMid] at this
      | fullBody b =>
          by_cases hb : b.length = 0
          · have hdisk2 : (attemptStep (oracle retry) seg st).2.disk seg = none := by
              simp [attemptStep, ho, hb, eraseDisk]
            have hrec := ih (retry + 1) _ hdisk2
            simpa [attemptStep, ho, hb] using hrec
          · left
            constructor
            · simp [attemptStep, ho, hb]
            · exact ⟨b, by simp [attemptStep, ho, hb, addDownloaded, writeDisk], by omega⟩

theorem dispatch_main (status : BackendStatus) (oracle : Nat → Nat → AttemptOutcome)
    (maxR : Nat) (maxSegs : Option Nat) (st : DLState) (h1 : status.ready ≠ [])
    (h2 : to_download_list status.ready maxSegs st ≠ []) :
    download_available_segments status oracle maxR maxSegs st =
      ⟨((runPool oracle maxR (to_download_list status.ready maxSegs st) st []).1).insertionSort
          (· ≤ ·),
        (runPool oracle maxR (to_download_list status.ready maxSegs st) st []).2,
        to_download_list status.ready maxSegs st⟩ := by
  simp [download_available_segments, h1, h2]

theorem monitor_step_no_new (e : CycleEnv) (maxR : Nat) (ms : MonState) :
    (monitor_step e maxR ms).1.no_new =
      if ms.last_count <
          (download_available_segments e.status1 e.oracle maxR none ms.st).returned.length
      then 0 else ms.no_new + 1 := by
  by_cases h1 : ms.last_count <
      (download_available_segments e.status1 e.oracle maxR none ms.st).returned.length <;>
    simp only [monitor_step, h1, if_true, if_false] <;> split <;> try split
  all_goals rfl

theorem combine_go_err : ∀ (reads : List ReadOutcome) (acc : List Nat),
    ReadOutcome.ioError ∈ reads → (combine_simple_go acc reads).ok = false := by
  intro reads
  induction reads with
  | nil => simp
  | cons r rest ih =>
      intro acc hmem
      cases r with
      | ok b =>
          have : ReadOutcome.ioError ∈ rest := by
            rcases List.mem_cons.mp hmem with h | h
            · cases h
            · exact h
          simpa [combine_simple_go] using ih (acc ++ b) this
      | ioError => rfl

theorem combine_go_partial : ∀ (bodies : List (List Nat)) (acc : List Nat)
    (rest : List ReadOutcome),
    combine_simple_go acc (bodies.map ReadOutcome.ok ++ ReadOutcome.ioError :: rest)
      = ⟨false, some (acc ++ bodies.flatten)⟩ := by
  intro bodies
  induction bodies with
  | nil =>
      intro acc rest
      simp [combine_simple_go]
  | cons b bs ih =>
      intro acc rest
      have hstep :
          combine_simple_go acc ((b :: bs).map ReadOutcome.ok ++ ReadOutcome.ioError :: rest)
            = combine_simple_go (acc ++ b)
                (bs.map ReadOutcome.ok ++ ReadOutcome.ioError :: rest) := rfl
      rw [hstep, ih]
      simp [List.flatten_cons, List.append_assoc]


/-- C1, counterexample: a fetch whose first GET drops mid-stream before any
byte is written (leaving a zero-byte file) and whose remaining GETs fail
outright completes with result Failure while the artifact is still on disk
— contradicting the claim that a Failure leaves the artifact absent. -/
theorem c1_zero_byte_left_on_failure :
    (download_segment
        (fun r : Nat => if r = 0 then AttemptOutcome.midStream [] else AttemptOutcome.reqError)
        3 0 0 DLState.init).ok = false ∧
    (download_segment
        (fun r : Nat => if r = 0 then AttemptOutcome.midStream [] else AttemptOutcome.reqError)
        3 0 0 DLState.init).st.disk 0 = some [] :=
  ⟨by decide, by decide⟩

/-- C1, amended: for a fetch on an index with no pre-existing artifact whose
attempts never fail mid-stream (each GET either fails before the body is
opened or delivers the body completely), the completion guarantee holds:
either the result is Success and the artifact is on disk with non-zero size,
or the result is Failure and the artifact is absent from disk. -/
theorem c1_fetch_disk_contract (oracle : Nat → AttemptOutcome) (maxR seg : Nat)
    (st : DLState) (hm : ∀ r, (oracle r).isMid = false) (hdisk : st.disk seg = none) :
    ((download_segment oracle maxR seg 0 st).ok = true ∧
      ∃ b, (download_segment oracle maxR seg 0 st).st.disk seg = some b ∧ 0 < b.length) ∨
    ((download_segment oracle maxR seg 0 st).ok = false ∧
      (download_segment oracle maxR seg 0 st).st.disk seg = none) := by
  rw [download_segment_zero]
  exact fetch_from_noMid oracle seg hm maxR 0 st hdisk

/-- C1, witness: the amended contract evaluated on a backend that always
delivers the two-byte body. -/
theorem c1_fetch_disk_contract_witness :
    (∀ r, ((fun _ : Nat => AttemptOutcome.fullBody [2, 2]) r).isMid = false) ∧
    DLState.init.disk 0 = none ∧
    (((download_segment (fun _ : Nat => AttemptOutcome.fullBody [2, 2]) 3 0 0 DLState.init).ok = true ∧
      ∃ b, (download_segment (fun _ : Nat => AttemptOutcome.fullBody [2, 2]) 3 0 0
          DLState.init).st.disk 0 = some b ∧ 0 < b.length) ∨
    ((download_segment (fun _ : Nat => AttemptOutcome.fullBody [2, 2]) 3 0 0 DLState.init).ok = false ∧
      (download_segment (fun _ : Nat => AttemptOutcome.fullBody [2, 2]) 3 0 0
          DLState.init).st.disk 0 = none)) :=
  ⟨fun _ => rfl, rfl,
    c1_fetch_disk_contract (fun _ : Nat => AttemptOutcome.fullBody [2, 2]) 3 0 DLState.init
      (fun _ => rfl) rfl⟩

/-- C2, counterexample: with index 0 already Downloaded and the backend
reporting ready = [0, 1], the dispatch downloads index 1 and returns [1] —
only the current round — although the cumulative Downloaded set is now
{0, 1}; the returned list is not the sorted cumulative Downloaded set the
claim describes. -/
theorem c2_returns_round_not_cumulative :
    (download_available_segments ⟨[0, 1], none⟩ c2Oracle 3 none c2State).returned = [1] ∧
    0 ∈ (download_available_segments ⟨[0, 1], none⟩ c2Oracle 3 none c2State).st.downloaded ∧
    (download_available_segments ⟨[0, 1], none⟩ c2Oracle 3 none c2State).returned ≠
      Finset.sort (· ≤ ·)
        (download_available_segments ⟨[0, 1], none⟩ c2Oracle 3 none c2State).st.downloaded := by
  refine ⟨by decide, by decide, ?_⟩
  intro h
  have h0 : (0 : Nat) ∈
      (download_available_segments ⟨[0, 1], none⟩ c2Oracle 3 none c2State).st.downloaded := by
    decide
  have hm := (Finset.mem_sort (α := Nat) (· ≤ ·)).mpr h0
  rw [← h] at hm
  have hr : (download_available_segments ⟨[0, 1], none⟩ c2Oracle 3 none c2State).returned
      = [1] := by decide
  rw [hr] at hm
  simp at hm

/-- C2, amended: whenever at least one ready index is still pending (not
already Downloaded or Failed), the dispatch returns the ascending-sorted
list of the indices that succeeded in the current round only: every
returned index comes from the ready list of the probe, was not previously
Downloaded or Failed, and is Downloaded afterwards.  The result is not
cumulative across rounds. -/
theorem c2_dispatch_round_local (status : BackendStatus)
    (oracle : Nat → Nat → AttemptOutcome) (maxR : Nat) (maxSegs : Option Nat)
    (st : DLState) (hpend : to_download_list status.ready maxSegs st ≠ []) :
    List.Sorted (· ≤ ·) (download_available_segments status oracle maxR maxSegs st).returned ∧
    ∀ x ∈ (download_available_segments status oracle maxR maxSegs st).returned,
      x ∈ status.ready ∧ x ∉ st.downloaded ∧ x ∉ st.failed ∧
        x ∈ (download_available_segments status oracle maxR maxSegs st).st.downloaded := by
  have h1 : status.ready ≠ [] := by
    intro h
    apply hpend
    rw [show to_download_list status.ready maxSegs st
        = to_download_list [] maxSegs st by rw [h]]
    exact to_download_nil _ _
  rw [dispatch_main status oracle maxR maxSegs st h1 hpend]
  constructor
  · exact List.sorted_insertionSort _ _
  · intro x hx
    have hx' : x ∈ (runPool oracle maxR (to_download_list status.ready maxSegs st) st []).1 :=
      (List.perm_insertionSort _ _).subset hx
    rcases (runPool_spec oracle maxR _ st []).1 x hx' with habs | ⟨hseg, hdl⟩
    · simp at habs
    · have hm := mem_to_download _ _ _ _ hseg
      exact ⟨hm.1, hm.2.1, hm.2.2, hdl⟩

/-- C2, witness: the amended statement evaluated on the counterexample
scenario (index 0 Downloaded, ready = [0, 1]). -/
theorem c2_dispatch_round_local_witness :
    to_download_list [0, 1] none c2State ≠ [] ∧
    (List.Sorted (· ≤ ·)
        (download_available_segments ⟨[0, 1], none⟩ c2Oracle 3 none c2State).returned ∧
      ∀ x ∈ (download_available_segments ⟨[0, 1], none⟩ c2Oracle 3 none c2State).returned,
        x ∈ ([0, 1] : List Nat) ∧ x ∉ c2State.downloaded ∧ x ∉ c2State.failed ∧
          x ∈ (download_available_segments ⟨[0, 1], none⟩ c2Oracle 3 none
              c2State).st.downloaded) :=
  ⟨by decide, c2_dispatch_round_local ⟨[0, 1], none⟩ c2Oracle 3 none c2State (by decide)⟩

/-- C3, counterexample: in a first cycle two segments download (the counter
resets, recorded round size 2); in the second cycle one NEW segment (index
2) becomes Downloaded, yet the stagnation counter increments to 1 instead of
resetting to 0, because the code compares the size of the current round
(1) against the recorded last_segment_count (2) rather than detecting new
Downloaded indices. -/
theorem c3_counter_not_reset_on_progress :
    2 ∉ (monitor_step c3EnvA 3 ⟨0, 0, DLState.init⟩).1.st.downloaded ∧
    2 ∈ (monitor_step c3EnvB 3 (monitor_step c3EnvA 3 ⟨0, 0, DLState.init⟩).1).1.st.downloaded ∧
    (monitor_step c3EnvB 3 (monitor_step c3EnvA 3 ⟨0, 0, DLState.init⟩).1).1.no_new = 1 :=
  ⟨by decide, by decide, by decide⟩

/-- C3, amended: the stagnation counter resets to zero exactly in the cycles
in which the length of the list returned by the dispatch exceeds the
recorded last_segment_count (not in every cycle in which a new index becomes
Downloaded), and increments otherwise; the stagnation threshold is the fixed
value 10, and a monitor run against a backend that never reports any ready
index and no total stops with reason Stagnant after exactly 10 cycles
whenever the wall-clock bound admits at least 10 cycles — the stagnation
bound, not the wall-clock bound, ends the run when it is reached first. -/
theorem c3_stagnation_stop (env : Nat → CycleEnv) (maxR maxCycles : Nat)
    (st : DLState) (h1 : ∀ c, (env c).status1.ready = [])
    (h2 : ∀ c, (env c).status2.total = none) (h3 : 10 ≤ maxCycles) :
    monitor_and_download env maxR maxCycles st = ⟨.stagnant, st, 10⟩ ∧
    ∀ (e : CycleEnv) (mR : Nat) (ms : MonState),
      (monitor_step e mR ms).1.no_new =
        if ms.last_count <
            (download_available_segments e.status1 e.oracle mR none ms.st).returned.length
        then 0 else ms.no_new + 1 := by
  constructor
  · unfold monitor_and_download
    rw [monitor_loop_stagnates env maxR h1 h2 maxCycles 0 ⟨0, 0, st⟩
        (by dsimp only; omega) (by dsimp only; omega)]
    rfl
  · exact fun e mR ms => monitor_step_no_new e mR ms

/-- C3, witness: the amended statement evaluated against the silent backend
with a wall-clock budget of 12 cycles. -/
theorem c3_stagnation_stop_witness :
    (∀ c, (c3EnvEmpty c).status1.ready = []) ∧
    (∀ c, (c3EnvEmpty c).status2.total = none) ∧
    (10 : Nat) ≤ 12 ∧
    (monitor_and_download c3EnvEmpty 3 12 DLState.init
        = ⟨.stagnant, DLState.init, 10⟩ ∧
      ∀ (e : CycleEnv) (mR : Nat) (ms : MonState),
        (monitor_step e mR ms).1.no_new =
          if ms.last_count <
              (download_available_segments e.status1 e.oracle mR none ms.st).returned.length
          then 0 else ms.no_new + 1) :=
  ⟨fun _ => rfl, fun _ => rfl, by decide,
    c3_stagnation_stop c3EnvEmpty 3 12 DLState.init (fun _ => rfl) (fun _ => rfl)
      (by decide)⟩

/-- C4, counterexample: a fetch whose every GET fails transiently — each
request drops mid-stream (a connection failure) after writing one byte — is
attempted only once, not MaxRetries + 1 times, and ends recorded Downloaded
(via the existence short-circuit on the partial file), not Failed. -/
theorem c4_midstream_early_success :
    (download_segment (fun _ : Nat => AttemptOutcome.midStream [5]) 3 0 0 DLState.init).ok
      = true ∧
    (download_segment (fun _ : Nat => AttemptOutcome.midStream [5]) 3 0 0
        DLState.init).netCalls = 1 ∧
    (download_segment (fun _ : Nat => AttemptOutcome.midStream [5]) 3 0 0
        DLState.init).st.failed = ∅ :=
  ⟨by decide, by decide, by decide⟩

/-- C4, amended: for a fetch on an index with no usable pre-existing
artifact whose every GET fails transiently WITHOUT leaving bytes on disk
(request error, empty mid-stream drop, or empty body), the fetch issues
exactly maxR + 1 GETs (the initial attempt plus maxR retries), sleeps
2 ^ attempt time units between consecutive attempts, returns Failure,
records the index Failed, and the index is filtered out of every subsequent
dispatch of the session. -/
theorem c4_retry_exhaustion (oracle : Nat → AttemptOutcome) (maxR seg : Nat)
    (st : DLState) (htr : ∀ r, (oracle r).transientNoData = true)
    (hex : existsNonzero st seg = false) :
    (download_segment oracle maxR seg 0 st).ok = false ∧
    (download_segment oracle maxR seg 0 st).netCalls = maxR + 1 ∧
    (download_segment oracle maxR seg 0 st).sleeps
      = (List.range maxR).map (fun i => 2 ^ i) ∧
    (download_segment oracle maxR seg 0 st).st.failed = insert seg st.failed ∧
    ∀ (status : BackendStatus) (orc2 : Nat → Nat → AttemptOutcome) (mR2 : Nat)
      (mS : Option Nat),
      seg ∉ (download_available_segments status orc2 mR2 mS
          (download_segment oracle maxR seg 0 st).st).issued := by
  have h := fetch_from_transient oracle seg htr maxR 0 st hex
  have hfail : (download_segment oracle maxR seg 0 st).st.failed = insert seg st.failed := by
    rw [download_segment_zero]
    exact ((fetch_from_sets oracle seg maxR 0 st).2 (by rw [← download_segment_zero]; rw [download_segment_zero]; exact h.1)).2
  refine ⟨by rw [download_segment_zero]; exact h.1, by rw [download_segment_zero]; exact h.2.1, ?_, hfail, ?_⟩
  · rw [download_segment_zero, h.2.2]
    apply List.map_congr_left
    intro a _
    rw [Nat.zero_add]
  · intro status orc2 mR2 mS hmem
    have hm := dispatch_issued_mem status orc2 mR2 mS _ seg hmem
    apply hm.2.2
    rw [hfail]
    exact Finset.mem_insert_self _ _

/-- C4, witness: the amended statement evaluated on a backend whose every
request raises a RequestException, with the default retry budget 3. -/
theorem c4_retry_exhaustion_witness :
    (∀ r, ((fun _ : Nat => AttemptOutcome.reqError) r).transientNoData = true) ∧
    existsNonzero DLState.init 0 = false ∧
    ((download_segment (fun _ : Nat => AttemptOutcome.reqError) 3 0 0 DLState.init).ok
        = false ∧
      (download_segment (fun _ : Nat => AttemptOutcome.reqError) 3 0 0
          DLState.init).netCalls = 3 + 1 ∧
      (download_segment (fun _ : Nat => AttemptOutcome.reqError) 3 0 0 DLState.init).sleeps
        = (List.range 3).map (fun i => 2 ^ i) ∧
      (download_segment (fun _ : Nat => AttemptOutcome.reqError) 3 0 0
          DLState.init).st.failed = insert 0 DLState.init.failed ∧
      ∀ (status : BackendStatus) (orc2 : Nat → Nat → AttemptOutcome) (mR2 : Nat)
        (mS : Option Nat),
        0 ∉ (download_available_segments status orc2 mR2 mS
            (download_segment (fun _ : Nat => AttemptOutcome.reqError) 3 0 0
                DLState.init).st).issued) :=
  ⟨fun _ => rfl, rfl,
    c4_retry_exhaustion (fun _ : Nat => AttemptOutcome.reqError) 3 0 DLState.init
      (fun _ => rfl) rfl⟩

/-- C5: for all index sets A and B, when the state knows exactly B as
Downloaded and the ready list of the probe enumerates A union B, the
dispatch issues fetches only for indices in A minus B; indices already known
Downloaded or Failed are filtered out before dispatch. -/
theorem c5_dispatch_filters_union (A B : Finset Nat) (status : BackendStatus)
    (oracle : Nat → Nat → AttemptOutcome) (maxR : Nat) (maxSegs : Option Nat)
    (st : DLState) (hB : st.downloaded = B) (hready : status.ready.toFinset = A ∪ B) :
    ∀ x ∈ (download_available_segments status oracle maxR maxSegs st).issued,
      x ∈ A \ B ∧ x ∉ st.downloaded ∧ x ∉ st.failed := by
  intro x hx
  have h := dispatch_issued_mem status oracle maxR maxSegs st x hx
  have hxAB : x ∈ A ∪ B := by
    rw [← hready]
    exact List.mem_toFinset.mpr h.1
  have hxB : x ∉ B := by
    rw [← hB]
    exact h.2.1
  refine ⟨Finset.mem_sdiff.mpr ⟨?_, hxB⟩, h.2.1, h.2.2⟩
  rcases Finset.mem_union.mp hxAB with hA | hB2
  · exact hA
  · exact absurd hB2 hxB

/-- C5, witness: the statement evaluated with A = {1}, B = {2, 3} and ready
list [1, 2, 3]. -/
theorem c5_dispatch_filters_union_witness :
    c5State.downloaded = ({2, 3} : Finset Nat) ∧
    ([1, 2, 3] : List Nat).toFinset = ({1} : Finset Nat) ∪ {2, 3} ∧
    ∀ x ∈ (download_available_segments ⟨[1, 2, 3], none⟩
        (fun _ _ : Nat => AttemptOutcome.reqError) 3 none c5State).issued,
      x ∈ ({1} : Finset Nat) \ {2, 3} ∧ x ∉ c5State.downloaded ∧ x ∉ c5State.failed :=
  ⟨rfl, by decide,
    c5_dispatch_filters_union {1} {2, 3} ⟨[1, 2, 3], none⟩
      (fun _ _ : Nat => AttemptOutcome.reqError) 3 none c5State rfl (by decide)⟩

/-- C6: calling the fetch twice for an index whose artifact is already on
disk with non-zero size returns Success both times and performs no network
call on the second invocation (indeed on neither invocation). -/
theorem c6_fetch_idempotent (oracle : Nat → AttemptOutcome) (maxR seg : Nat)
    (st : DLState) (b : List Nat) (hb : st.disk seg = some b) (hlen : 0 < b.length) :
    (download_segment oracle maxR seg 0 st).ok = true ∧
    (download_segment oracle maxR seg 0 st).netCalls = 0 ∧
    (download_segment oracle maxR seg 0 (download_segment oracle maxR seg 0 st).st).ok
      = true ∧
    (download_segment oracle maxR seg 0 (download_segment oracle maxR seg 0 st).st).netCalls
      = 0 := by
  have hex : existsNonzero st seg = true := by
    unfold existsNonzero
    rw [hb]
    simpa using hlen
  have h1 : download_segment oracle maxR seg 0 st = ⟨true, addDownloaded st seg, 0, []⟩ := by
    rw [download_segment_zero, fetch_from_unfold, if_pos hex]
  have hb2 : (addDownloaded st seg).disk seg = some b := hb
  have hex2 : existsNonzero (addDownloaded st seg) seg = true := by
    unfold existsNonzero
    rw [hb2]
    simpa using hlen
  have h2 : download_segment oracle maxR seg 0 (addDownloaded st seg)
      = ⟨true, addDownloaded (addDownloaded st seg) seg, 0, []⟩ := by
    rw [download_segment_zero, fetch_from_unfold, if_pos hex2]
  rw [h1, h2]
  exact ⟨rfl, rfl, rfl, rfl⟩

/-- C6, witness: idempotence evaluated on a state whose segment-0 artifact
holds one byte. -/
theorem c6_fetch_idempotent_witness :
    c6State.disk 0 = some [5] ∧
    0 < ([5] : List Nat).length ∧
    ((download_segment (fun _ : Nat => AttemptOutcome.reqError) 3 0 0 c6State).ok = true ∧
      (download_segment (fun _ : Nat => AttemptOutcome.reqError) 3 0 0 c6State).netCalls
        = 0 ∧
      (download_segment (fun _ : Nat => AttemptOutcome.reqError) 3 0 0
          (download_segment (fun _ : Nat => AttemptOutcome.reqError) 3 0 0 c6State).st).ok
        = true ∧
      (download_segment (fun _ : Nat => AttemptOutcome.reqError) 3 0 0
          (download_segment (fun _ : Nat => AttemptOutcome.reqError) 3 0 0
            c6State).st).netCalls = 0) :=
  ⟨rfl, by decide,
    c6_fetch_idempotent (fun _ : Nat => AttemptOutcome.reqError) 3 0 c6State [5] rfl
      (by decide)⟩

/-- C7, counterexample: a 2xx status response whose body is valid JSON but
not a JSON object makes the probe raise an AttributeError that propagates to
the caller, contradicting the claim that no probe failure ever propagates
and that every malformed body yields the empty status. -/
theorem c7_nonobject_propagates :
    get_segment_status (.response .nonObject) = .error .attributeError := rfl

/-- C7, amended: on any transport error, and on any response body that fails
to parse as JSON, the probe returns the empty ready set and an absent total
without raising; a response that parses to a JSON object yields its ready
list (defaulting to empty) and its optional total.  Only a parseable
non-object body escapes as an exception. -/
theorem c7_probe_absorbs_errors :
    get_segment_status .requestError = Except.ok ⟨[], none⟩ ∧
    get_segment_status (.response .badJson) = Except.ok ⟨[], none⟩ ∧
    ∀ (ready : Option (List Nat)) (total : Option Nat),
      get_segment_status (.response (.obj ready total)) = Except.ok ⟨ready.getD [], total⟩ :=
  ⟨rfl, rfl, fun _ _ => rfl⟩

/-- C8, counterexample: a simple-concatenation combine that reads the first
segment (one byte) and then hits an I/O error reports Failure but leaves the
partially written output file (containing that byte) in place, contradicting
the claim that no partial output file survives a failure. -/
theorem c8_partial_output_left :
    (combine_simple true [.ok [1], .ioError]).ok = false ∧
    (combine_simple true [.ok [1], .ioError]).output = some [1] :=
  ⟨by decide, by decide⟩

/-- C8, amended: any I/O failure during either combine path is reported as
Failure, but a partial output file may remain: the simple path leaves
exactly the concatenation of the segment bodies read before the failure,
and the remux path leaves whatever the external tool wrote before failing. -/
theorem c8_combine_failure_reported (openOk : Bool) (reads : List ReadOutcome)
    (bodies : List (List Nat)) (rest : List ReadOutcome) (listWriteOk : Bool)
    (leftover : Option (List Nat)) :
    (ReadOutcome.ioError ∈ reads → (combine_simple openOk reads).ok = false) ∧
    combine_simple false reads = ⟨false, none⟩ ∧
    combine_simple true (bodies.map ReadOutcome.ok ++ ReadOutcome.ioError :: rest)
      = ⟨false, some bodies.flatten⟩ ∧
    (combine_with_ffmpeg listWriteOk (.fails leftover)).ok = false := by
  refine ⟨?_, rfl, ?_, ?_⟩
  · intro hmem
    cases openOk
    · rfl
    · exact combine_go_err reads [] hmem
  · have h := combine_go_partial bodies [] rest
    simpa [combine_simple] using h
  · cases listWriteOk <;> rfl

/-- C8, witness: the amended statement evaluated on a two-read failure and a
failing ffmpeg invocation. -/
theorem c8_combine_failure_reported_witness :
    ReadOutcome.ioError ∈ [ReadOutcome.ok [1], ReadOutcome.ioError] ∧
    ((combine_simple true [ReadOutcome.ok [1], ReadOutcome.ioError]).ok = false ∧
      combine_simple true ([[2]].map ReadOutcome.ok ++ ReadOutcome.ioError :: [])
        = ⟨false, some ([[2]] : List (List Nat)).flatten⟩ ∧
      (combine_with_ffmpeg true (.fails (some [9]))).ok = false) :=
  ⟨by decide,
    (c8_combine_failure_reported true [ReadOutcome.ok [1], ReadOutcome.ioError] [[2]] []
        true (some [9])).1 (by decide),
    (c8_combine_failure_reported true [ReadOutcome.ok [1], ReadOutcome.ioError] [[2]] []
        true (some [9])).2.2.1,
    (c8_combine_failure_reported true [ReadOutcome.ok [1], ReadOutcome.ioError] [[2]] []
        true (some [9])).2.2.2⟩

/-- C9, counterexample: when the backend reports the duplicate ready list
[5, 5], one dispatch round records index 5 BOTH as Failed (first invocation:
three request errors, then a final mid-stream drop that leaves one byte on
disk) and as Downloaded (second invocation: the existence short-circuit on
that partial file) — an index in two states at once. -/
theorem c9_duplicate_ready_double_state :
    5 ∈ (download_available_segments ⟨[5, 5], none⟩
        (fun _ r : Nat => if r = 3 then AttemptOutcome.midStream [9]
          else AttemptOutcome.reqError) 3 none DLState.init).st.downloaded ∧
    5 ∈ (download_available_segments ⟨[5, 5], none⟩
        (fun _ r : Nat => if r = 3 then AttemptOutcome.midStream [9]
          else AttemptOutcome.reqError) 3 none DLState.init).st.failed :=
  ⟨by decide, by decide⟩

/-- C9, amended: provided every status response carries a duplicate-free
ready list, the Downloaded and Failed sets stay disjoint at every cycle
boundary of any monitor run (so no index is ever recorded in both states),
both sets only grow (in particular Failed indices never leave Failed — no
automatic re-queue), and no dispatch ever issues a fetch for an index
already recorded Downloaded or Failed. -/
theorem c9_state_exclusivity (env : Nat → CycleEnv) (maxR remaining cycle : Nat)
    (ms : MonState) (hnd : ∀ c, ((env c).status1.ready).Nodup)
    (hd : Disjoint ms.st.downloaded ms.st.failed) :
    (Disjoint (monitor_loop env maxR remaining cycle ms).st.downloaded
        (monitor_loop env maxR remaining cycle ms).st.failed ∧
      ms.st.downloaded ⊆ (monitor_loop env maxR remaining cycle ms).st.downloaded ∧
      ms.st.failed ⊆ (monitor_loop env maxR remaining cycle ms).st.failed) ∧
    ∀ (status : BackendStatus) (orc : Nat → Nat → AttemptOutcome) (mR : Nat)
      (mS : Option Nat) (st : DLState),
      ∀ x ∈ (download_available_segments status orc mR mS st).issued,
        x ∉ st.downloaded ∧ x ∉ st.failed := by
  refine ⟨monitor_loop_inv env maxR hnd remaining cycle ms hd, ?_⟩
  intro status orc mR mS st x hx
  exact (dispatch_issued_mem status orc mR mS st x hx).2

/-- C9, witness: the amended invariant evaluated on a two-cycle run against
a duplicate-free backend from the empty initial state. -/
theorem c9_state_exclusivity_witness :
    (∀ c, ((c9EnvW c).status1.ready).Nodup) ∧
    Disjoint DLState.init.downloaded DLState.init.failed ∧
    ((Disjoint (monitor_loop c9EnvW 3 2 0 ⟨0, 0, DLState.init⟩).st.downloaded
        (monitor_loop c9EnvW 3 2 0 ⟨0, 0, DLState.init⟩).st.failed ∧
      (⟨0, 0, DLState.init⟩ : MonState).st.downloaded ⊆
        (monitor_loop c9EnvW 3 2 0 ⟨0, 0, DLState.init⟩).st.downloaded ∧
      (⟨0, 0, DLState.init⟩ : MonState).st.failed ⊆
        (monitor_loop c9EnvW 3 2 0 ⟨0, 0, DLState.init⟩).st.failed) ∧
    ∀ (status : BackendStatus) (orc : Nat → Nat → AttemptOutcome) (mR : Nat)
      (mS : Option Nat) (st : DLState),
      ∀ x ∈ (download_available_segments status orc mR mS st).issued,
        x ∉ st.downloaded ∧ x ∉ st.failed) :=
  ⟨fun _ => by show ([0, 1] : List Nat).Nodup; decide, by simp [DLState.init],
    c9_state_exclusivity c9EnvW 3 2 0 ⟨0, 0, DLState.init⟩
      (fun _ => by show ([0, 1] : List Nat).Nodup; decide) (by simp [DLState.init])⟩

/-- C10: the on-disk short-circuit condition is exactly existence with size
greater than zero: any existing non-empty artifact — regardless of content —
makes the fetch immediately record the index Downloaded and return Success
with zero network calls, while an existing zero-byte artifact does not
short-circuit and at least one GET is issued. -/
theorem c10_short_circuit_exact (oracle : Nat → AttemptOutcome) (maxR seg : Nat)
    (st : DLState) :
    (∀ b, st.disk seg = some b → 0 < b.length →
      download_segment oracle maxR seg 0 st = ⟨true, addDownloaded st seg, 0, []⟩) ∧
    (st.disk seg = some [] → 1 ≤ (download_segment oracle maxR seg 0 st).netCalls) := by
  constructor
  · intro b hb hlen
    have hex : existsNonzero st seg = true := by
      unfold existsNonzero
      rw [hb]
      simpa using hlen
    rw [download_segment_zero, fetch_from_unfold, if_pos hex]
  · intro hb
    have hex : existsNonzero st seg = false := by
      unfold existsNonzero
      rw [hb]
      simp
    rw [download_segment_zero, fetch_from_unfold]
    simp only [hex, Bool.false_eq_true, if_false]
    split
    · exact Nat.le_refl 1
    · split
      · simp
      · exact Nat.le_refl 1

/-- C10, witness: the short-circuit dichotomy evaluated on a state whose
segment-0 artifact is nonempty and whose segment-1 artifact is zero-byte. -/
theorem c10_short_circuit_exact_witness :
    c10State.disk 0 = some [5] ∧
    c10State.disk 1 = some [] ∧
    download_segment (fun _ : Nat => AttemptOutcome.reqError) 3 0 0 c10State
      = ⟨true, addDownloaded c10State 0, 0, []⟩ ∧
    1 ≤ (download_segment (fun _ : Nat => AttemptOutcome.reqError) 3 1 0 c10State).netCalls :=
  ⟨rfl, rfl,
    (c10_short_circuit_exact (fun _ : Nat => AttemptOutcome.reqError) 3 0 c10State).1 [5]
      rfl (by decide),
    (c10_short_circuit_exact (fun _ : Nat => AttemptOutcome.reqError) 3 1 c10State).2 rfl⟩
